import Mathlib

/-!
Shallow embedding of `evennia/prototypes/menus.py` (the OLC prototype
wizard).  The prototype document is a Python dict; we model it as an
association list with Python-dict update semantics (update in place,
new keys appended).  External collaborators (the protfunc parser, the
prototype store `protlib`, the spawner, the lock checker) are passed
in as function parameters ("oracles"): this module only calls them.
-/

namespace OLC

/-- Values stored in a prototype dict by the menu code: the free-text
setters store strings, the comma-separated-list setters store lists of
strings. -/
inductive Value where
  | str : String → Value
  | vlist : List String → Value
deriving DecidableEq, Repr

/-- Python truthiness for the values above: `""` and `[]` are falsy. -/
def Value.isFalsy : Value → Bool
  | .str s => s = ""
  | .vlist l => l.isEmpty

/-- Python `str()` display of a value (for message formatting). -/
def Value.pyStr : Value → String
  | .str s => s
  | .vlist l =>
      "[" ++ String.intercalate ", " (l.map (fun x => "\x27" ++ x ++ "\x27")) ++ "]"

/-- Python `type(value)` display. -/
def Value.pyType : Value → String
  | .str _ => "<class \x27str\x27>"
  | .vlist _ => "<class \x27list\x27>"

/-- Display via `json.dumps` (line 144 of the source). -/
def Value.jsonDumps : Value → String
  | .str s => "\x22" ++ s ++ "\x22"
  | .vlist l =>
      "[" ++ String.intercalate ", " (l.map (fun x => "\x22" ++ x ++ "\x22")) ++ "]"

/-- A prototype: a Python dict from field names to values. -/
def Proto := List (String × Value)
deriving instance DecidableEq, Repr for Proto

/-- Python `d.get(key)` / `d[key]`: first (only) binding of the key. -/
def dictGet : Proto → String → Option Value
  | [], _ => none
  | (k, v) :: rest, f => if k = f then some v else dictGet rest f

/-- Python `d[key] = value`: update in place if present, else append. -/
def dictSet : Proto → String → Value → Proto
  | [], f, v => [(f, v)]
  | (k, w) :: rest, f, v =>
      if k = f then (k, v) :: rest else (k, w) :: dictSet rest f v

/-- Python `d.pop(key, None)`: drop the binding of the key, if any. -/
def dictPop : Proto → String → Proto
  | [], _ => []
  | (k, v) :: rest, f => if k = f then rest else (k, v) :: dictPop rest f

/-- Membership test `key in d`. -/
def hasKey (p : Proto) (f : String) : Bool :=
  (dictGet p f).isSome

/-- The keys of the dict, in order. -/
def dictKeys (p : Proto) : List String :=
  p.map Prod.fst

/-- Well-formedness of the dict representation: Python dict keys are
unique. -/
def dictNodup (p : Proto) : Prop :=
  (dictKeys p).Nodup

instance (p : Proto) : Decidable (dictNodup p) := by
  unfold dictNodup; infer_instance

/-- The session-scoped scratch state held on `caller.ndb._menutree`.
`none` models an absent attribute (or one set to Python `None`). -/
structure MenuState where
  olc_prototype : Option Proto
  olc_new : Option Bool
deriving DecidableEq, Repr

/-- Embeds `_get_menu_prototype` (lines 31-39): return the currently active
menu prototype; if the attribute is absent or falsy, install a fresh
empty dict and mark the prototype as new.  Returns the prototype and
the (possibly updated) state. -/
def get_menu_prototype (st : MenuState) : Proto × MenuState :=
  match st.olc_prototype with
  | some (kv :: rest) => (kv :: rest, st)
  | _ => ([], { st with olc_prototype := some [], olc_new := some true })

/-- Embeds `_set_menu_prototype` (lines 42-46): replace the edited prototype
and set `olc_new = False`. -/
def set_menu_prototype (st : MenuState) (prototype : Proto) : MenuState :=
  { st with olc_prototype := some prototype, olc_new := some false }

/-- Embeds `_is_new_prototype` (lines 49-51): `hasattr` check on `olc_new`. -/
def is_new_prototype (st : MenuState) : Bool :=
  st.olc_new.isSome

/-- Embeds `_set_prototype_value` (lines 83-88): set a prototype field and
store the mapping back on the menutree.  Returns the new state and the
updated prototype (the Python function returns the prototype). -/
def set_prototype_value (st : MenuState) (field : String) (value : Value) :
    MenuState × Proto :=
  let pr := get_menu_prototype st
  let prototype := dictSet pr.1 field value
  ({ pr.2 with olc_prototype := some prototype }, prototype)

/-- The external protfunc parse step of `protlib` called with
`testing=True`: returns `(err, parsed_value)`; `none` models a falsy
`err`. -/
def Protfunc := Value → Option String × Value

/-- A `processor` kwarg: converts the raw input string to a value;
an exception is modelled as `Except.error` carrying `str(err)`. -/
def Processor := String → Except String Value

/-- Python `str.capitalize()`. -/
def pyCapitalize (s : String) : String :=
  match s.data with
  | [] => ""
  | c :: rest => String.mk (c.toUpper :: rest.map Char.toLower)

/-- Python `str.strip()`: drop whitespace from both ends. -/
def pyStrip (s : String) : String :=
  String.mk (((s.data.dropWhile Char.isWhitespace).reverse.dropWhile
    Char.isWhitespace).reverse)

/-- Python `str.lower()`. -/
def pyLower (s : String) : String :=
  String.mk (s.data.map Char.toLower)

/-- Result of running a goto callback: the new session state, the
messages sent with `caller.msg`, and the returned next-node id
(`none` models Python `None`, which re-runs the current node). -/
structure SPResult where
  state : MenuState
  msgs : List String
  ret : Option String
deriving DecidableEq, Repr

/-- Helper `procValue`: apply the `processor` kwarg as `_set_property` does
(lines 118-127): a callable processor converts the raw string (and may
raise); otherwise the raw string itself is the value. -/
def procValue (processor : Option Processor) (raw_string : String) :
    Except String Value :=
  match processor with
  | some f => f raw_string
  | none => .ok (.str raw_string)

/-- Embeds `_set_property` (lines 91-163): add or update a property.
On processor error: message the user and return `None` (re-run node).
On falsy value: return `next_node` without touching the prototype.
Otherwise store the value, enforce that `typeclass` and
`prototype_parent` never co-exist, optionally simulate protfunc
parsing for display, and return the statically configured
`next_node`. -/
def set_property (pf : Protfunc) (st : MenuState) (raw_string : String)
    (prop : String) (processor : Option Processor) (next_node : String)
    (test_parse : Bool) : SPResult :=
  let propname_low := pyLower (pyStrip prop)
  match procValue processor raw_string with
  | .error err =>
      { state := st,
        msgs := ["Could not set " ++ pyCapitalize (String.replace prop "_" "-")
                  ++ " to " ++ raw_string ++ " (" ++ err ++ ")"],
        ret := none }
  | .ok value =>
      if value.isFalsy then
        { state := st, msgs := [], ret := some next_node }
      else
        let pr := set_prototype_value st prop value
        let prototype := pr.2
        let prototype :=
          if propname_low = "typeclass" then dictPop prototype "prototype_parent"
          else prototype
        let prototype :=
          if propname_low = "prototype_parent" then dictPop prototype "typeclass"
          else prototype
        let st2 := { pr.1 with olc_prototype := some prototype }
        let out := [" Set " ++ prop ++ " to " ++ value.jsonDumps
                    ++ " (" ++ value.pyType ++ ")."]
        let out :=
          if test_parse then
            let pres := pf value
            let out := out ++ [" Simulating prototype-func parsing ..."]
            let out :=
              match pres.1 with
              | some e => out ++ [" |yPython `literal_eval` warning: " ++ e ++ "|n"]
              | none => out
            if pres.2 ≠ value then
              out ++ [" |g(Example-)value when parsed (" ++ pres.2.pyType
                      ++ "):|n " ++ pres.2.pyStr]
            else
              out ++ [" |gNo change when parsed."]
          else out
        { state := st2, msgs := [String.intercalate "\n" out], ret := some next_node }

/-- Python `repr` of a prototype dict (display only). -/
def protoPyRepr (p : Proto) : String :=
  "\x7b" ++ String.intercalate ", "
    (p.map (fun kv => "\x27" ++ kv.1 ++ "\x27: " ++ kv.2.pyStr)) ++ "\x7d"

/-- Python `s.split(sep)` with an explicit one-character separator:
`"".split(",") = [""]` and empty parts are kept. -/
def pySplitAux (sep : Char) : List Char → List Char → List String
  | [], acc => [String.mk acc.reverse]
  | c :: rest, acc =>
      if c = sep then String.mk acc.reverse :: pySplitAux sep rest []
      else pySplitAux sep rest (c :: acc)

/-- Python `s.split(sep)`. -/
def pySplit (s : String) (sep : Char) : List String :=
  pySplitAux sep s.data []

/-- The `processor=str` kwarg used by the list-selection handlers. -/
def strProcessor : Processor := fun s => .ok (.str s)

/-- Processor of `node_aliases` (line 457):
`lambda s: [part.strip() for part in s.split(",")]`. -/
def aliases_processor : Processor :=
  fun s => .ok (.vlist ((pySplit s ',').map pyStrip))

/-- Processor of `node_permissions` (line 688): same comma-split
with per-part strip. -/
def permissions_processor : Processor :=
  fun s => .ok (.vlist ((pySplit s ',').map pyStrip))

/-- Processor of `node_prototype_tags` (lines 788-789):
`lambda s: [str(part.strip().lower()) for part in s.split(",")]`. -/
def prototype_tags_processor : Processor :=
  fun s => .ok (.vlist ((pySplit s ',').map (fun part => pyLower (pyStrip part))))

/-- Embeds `_check_prototype_key` (lines 278-298).  `search` is
`protlib.search_prototype`; `lockCheck` is the external lockstring
check of the edit lock stored under `prototype_locks`. -/
def check_prototype_key (search : String → List Proto) (lockCheck : Proto → Bool)
    (pf : Protfunc) (st : MenuState) (key : String) : SPResult :=
  let old_prototype := search key
  let olc_new := is_new_prototype st
  let key := pyLower (pyStrip key)
  match old_prototype with
  | oldp :: _ =>
      if !lockCheck oldp then
        { state := st,
          msgs := ["Prototype \x27" ++ key ++ "\x27 already exists and you "
                    ++ "don\x27t have permission to edit it."],
          ret := some "node_prototype_key" }
      else if olc_new then
        { state := { st with olc_new := none, olc_prototype := some oldp },
          msgs := ["Prototype already exists. Reloading."],
          ret := some "node_index" }
      else
        set_property pf st key "prototype_key" none "node_prototype_parent" true
  | [] => set_property pf st key "prototype_key" none "node_prototype_parent" true

/-- Embeds `_typeclass_select` (lines 398-402): stores the selected typeclass
through `_set_property` (which drops any `prototype_parent`) and sends
an extra confirmation message. -/
def typeclass_select (pf : Protfunc) (st : MenuState) (typeclass : String) :
    SPResult :=
  let sp := set_property pf st typeclass "typeclass" (some strProcessor)
    "node_key" true
  { sp with msgs := sp.msgs ++
      ["Selected typeclass |y" ++ typeclass ++ "|n. Removed any set prototype parent."] }

/-- Embeds `_prototype_parent_select` (lines 336-340): stores the selected
prototype's key as `prototype_parent` through `_set_property` (which
drops any `typeclass`).  The subscript lookup of `prototype_key` raises
`KeyError` when absent, modelled as `none`. -/
def prototype_parent_select (pf : Protfunc) (st : MenuState)
    (prototype : Proto) : Option SPResult :=
  match dictGet prototype "prototype_key" with
  | none => none
  | some v =>
      let sp := set_property pf st v.pyStr "prototype_parent"
        (some strProcessor) "node_key" true
      some { sp with msgs := sp.msgs ++
          ["Selected prototype |y" ++ protoPyRepr prototype
            ++ "|n. Removed any set typeclass parent."] }

/-- Embeds `_validate_prototype` (lines 196-213).  `protoToStr` is the
external `protlib.prototype_to_str`; `validateSpawn` models
`spawner.spawn(prototype, only_validate=True)`: `none` when no
exception is raised, `some (isWarning, message)` when it raises a
`RuntimeWarning` (yellow) or `RuntimeError` (red).  Returns
`(err, text)`. -/
def validate_prototype (protoToStr : Proto → String)
    (validateSpawn : Proto → Option (Bool × String)) (prototype : Proto) :
    Bool × String :=
  let txt := protoToStr prototype
  match validateSpawn prototype with
  | none =>
      (false, txt ++ "\n\n|g No validation errors found.|n "
        ++ "(but errors could still happen at spawn-time)")
  | some (isWarning, m) =>
      (true, txt ++ (if isWarning then "\n\n|y" ++ m ++ "|n"
                     else "\n\n|r" ++ m ++ "|n"))

/-- Python truthiness of the `prototype` kwarg in
`node_prototype_save`: present and a non-empty dict. -/
def protoTruthy : Option Proto → Bool
  | some (_ :: _) => true
  | _ => false

/-- Outcome of `node_prototype_save`: the state, every prototype passed
to the external `protlib.save_prototype` (persist), the `caller.msg`
output, the returned next-node id (when the node acts as a goto
callback), the displayed node text, whether the returned options offer
the accept-save continuation (the Yes/default options), the prototype
those options carry, and whether the Python code raises (`KeyError`). -/
structure SaveResult where
  state : MenuState
  saveCalls : List Proto
  msgs : List String
  ret : Option String
  text : Option String
  offersAccept : Bool
  acceptPrototype : Option Proto
  crashed : Bool
deriving DecidableEq, Repr

/-- Embeds `node_prototype_save` (lines 815-861).  On a second pass with
`accept=True` and a truthy prototype kwarg it persists and goes to
`node_spawn`; otherwise it validates the current prototype, aborts
with a message on error, and only on success offers the accept-save
options (carrying the validated prototype).  When validation passes
but the key is not an already-saved prototype, the format call on
line 847 raises `KeyError` (it passes the key positionally while the
template field is named `name`), modelled by `crashed`. -/
def node_prototype_save (protoToStr : Proto → String)
    (validateSpawn : Proto → Option (Bool × String))
    (searchFound : String → Bool) (st : MenuState)
    (accept_save : Bool) (protoArg : Option Proto) : SaveResult :=
  if accept_save && protoTruthy protoArg then
    { state := st, saveCalls := [protoArg.getD []],
      msgs := ["|gPrototype saved.|n"], ret := some "node_spawn",
      text := none, offersAccept := false, acceptPrototype := none,
      crashed := false }
  else
    let pr := get_menu_prototype st
    let prototype := pr.1
    let st1 := pr.2
    let vr := validate_prototype protoToStr validateSpawn prototype
    if vr.1 then
      { state := st1, saveCalls := [], msgs := [], ret := none,
        text := some (vr.2 ++ "\n" ++ "Validation errors were found. "
          ++ "They need to be corrected before this prototype "
          ++ "can be saved (or used to spawn)."),
        offersAccept := false, acceptPrototype := none, crashed := false }
    else
      match dictGet prototype "prototype_key" with
      | none =>
          { state := st1, saveCalls := [], msgs := [], ret := none,
            text := none, offersAccept := false, acceptPrototype := none,
            crashed := true }
      | some pk =>
          if searchFound pk.pyStr then
            { state := st1, saveCalls := [], msgs := [], ret := none,
              text := some (vr.2 ++ "\n"
                ++ "Do you want to save/overwrite the existing prototype \x27"
                ++ pk.pyStr ++ "\x27?"),
              offersAccept := true, acceptPrototype := some prototype,
              crashed := false }
          else
            { state := st1, saveCalls := [], msgs := [], ret := none,
              text := none, offersAccept := false, acceptPrototype := none,
              crashed := true }

/-- A live object returned by the external spawner. -/
structure ObjRef where
  key : String
  dbref : String
deriving DecidableEq, Repr

/-- Embeds `_spawn` (lines 864-875): copy the prototype kwarg, override its
location when a truthy `location` kwarg is given, call the external
`spawner.spawn` once, and message the outcome.  Returns the list of
prototypes passed to `spawner.spawn` together with the messages. -/
def run_spawn (spawnFn : Proto → Option ObjRef) (protoKwarg : Proto)
    (location : Option Value) : List Proto × List String :=
  let prototype := protoKwarg
  let prototype :=
    match location with
    | some loc => if loc.isFalsy then prototype
                  else dictSet prototype "location" loc
    | none => prototype
  match spawnFn prototype with
  | some obj =>
      ([prototype],
        ["|gNew instance|n " ++ obj.key ++ " (" ++ obj.dbref
          ++ ") |gspawned.|n"])
  | none =>
      ([prototype], ["|rError: Spawner did not return a new instance.|n"])

/-- Truthiness of the location field read with `prototype.get`. -/
def locTruthy : Option Value → Bool
  | some v => !v.isFalsy
  | none => false

/-- Outcome of `node_prototype_spawn`: the state, the displayed text
parts, the `(prototype, location-kwarg)` pairs of the offered `_spawn`
goto options (`none` = no location kwarg), whether the batch-update
option is offered, and whether the Python code raises (`KeyError` on a
missing `prototype_key`). -/
structure SpawnNodeResult where
  state : MenuState
  text : List String
  spawnOptions : List (Proto × Option Value)
  updateOffered : Bool
  crashed : Bool
deriving DecidableEq, Repr

/-- Embeds `node_prototype_spawn` (lines 886-931).  On a validation error it
shows the error and offers no `_spawn` option; otherwise it offers up
to three `_spawn` options (prototype location, caller's location,
caller's inventory), each carrying the current prototype. -/
def node_prototype_spawn (protoToStr : Proto → String)
    (validateSpawn : Proto → Option (Bool × String))
    (spawnedCount : String → Nat)
    (callerLoc : Option Value) (callerObj : Value)
    (st : MenuState) : SpawnNodeResult :=
  let pr := get_menu_prototype st
  let prototype := pr.1
  let st1 := pr.2
  let vr := validate_prototype protoToStr validateSpawn prototype
  if vr.1 then
    { state := st1,
      text := [vr.2,
        "|rPrototype validation failed. Correct the errors before spawning.|n"],
      spawnOptions := [], updateOffered := false, crashed := false }
  else
    match dictGet prototype "prototype_key" with
    | none =>
        { state := st1, text := [], spawnOptions := [],
          updateOffered := false, crashed := true }
    | some pk =>
        let location := dictGet prototype "location"
        let opts : List (Proto × Option Value) :=
          (if locTruthy location then [(prototype, none)] else [])
          ++ (if location ≠ callerLoc then [(prototype, callerLoc)] else [])
          ++ (if location ≠ callerLoc ∧ callerLoc ≠ some callerObj then
                [(prototype, some callerObj)] else [])
        let nspawned := spawnedCount pk.pyStr
        { state := st1, text := [vr.2], spawnOptions := opts,
          updateOffered := decide (0 < nspawned), crashed := false }

/-- Embeds `_prototype_load_select` (lines 934-943): retrieve by key through
the external `protlib.search_prototype`; on a match, install the first
match as the edited prototype (via `_set_menu_prototype`) and go to
`node_index`; otherwise message the failure and return `None`. -/
def prototype_load_select (search : String → List Proto) (st : MenuState)
    (prototype_key : String) : SPResult :=
  match search prototype_key with
  | prototype :: _ =>
      { state := set_menu_prototype st prototype,
        msgs := ["|gLoaded prototype \x27" ++ prototype_key ++ "\x27."],
        ret := some "node_index" }
  | [] =>
      { state := st,
        msgs := ["|rFailed to load prototype \x27" ++ prototype_key ++ "\x27."],
        ret := none }

/-- The currently edited prototype dict of a state (empty when the
attribute is absent). -/
def protoOf (st : MenuState) : Proto :=
  st.olc_prototype.getD []

/-- The prototype produced by a successful store in `_set_property`:
the field is written and then the `typeclass`/`prototype_parent`
exclusion is enforced. -/
def storeResultProto (st : MenuState) (prop : String) (v : Value) : Proto :=
  let p1 := dictSet (get_menu_prototype st).1 prop v
  let p2 := if pyLower (pyStrip prop) = "typeclass" then
              dictPop p1 "prototype_parent"
            else p1
  if pyLower (pyStrip prop) = "prototype_parent" then dictPop p2 "typeclass"
  else p2

/-- The prototype `_spawn` hands to `spawner.spawn`: the prototype
kwarg with its location overridden when a truthy location kwarg was
given. -/
def spawnTarget (p : Proto) (loc : Option Value) : Proto :=
  match loc with
  | some l => if l.isFalsy then p else dictSet p "location" l
  | none => p

/-! ### Concrete fixtures used by the closed witness theorems -/

/-- A protfunc oracle that parses every value to itself, no error. -/
def idProtfunc : Protfunc := fun v => (none, v)

/-- A protfunc oracle whose parse result differs from its input. -/
def constProtfunc : Protfunc := fun _ => (none, Value.str "PARSED")

/-- A processor that always raises. -/
def failProcessor : Processor := fun _ => .error "boom"

/-- A fresh menutree state (no `olc_prototype`, no `olc_new`). -/
def emptyState : MenuState := { olc_prototype := none, olc_new := none }

/-- A small prototype dict. -/
def goblinProto : Proto :=
  [("prototype_key", Value.str "goblin"), ("key", Value.str "a goblin")]

/-- A prototype store that knows exactly the `goblin` prototype. -/
def goblinSearch : String → List Proto :=
  fun k => if k = "goblin" then [goblinProto] else []

/-- A spawner oracle that always returns one fixed live object. -/
def okSpawner : Proto → Option ObjRef :=
  fun _ => some { key := "a goblin", dbref := "#5" }

/-! ### Dictionary lemmas -/

theorem dictGet_dictSet_self (p : Proto) (f : String) (v : Value) :
    dictGet (dictSet p f v) f = some v := by
  induction p with
  | nil => simp [dictSet, dictGet]
  | cons kv rest ih =>
      obtain ⟨k, w⟩ := kv
      by_cases h : k = f <;> simp [dictSet, dictGet, h, ih]

theorem dictGet_dictSet_ne (p : Proto) (f g : String) (v : Value)
    (h : g ≠ f) : dictGet (dictSet p f v) g = dictGet p g := by
  induction p with
  | nil => simp [dictSet, dictGet, Ne.symm h]
  | cons kv rest ih =>
      obtain ⟨k, w⟩ := kv
      by_cases hk : k = f
      · subst hk
        simp [dictSet, dictGet, Ne.symm h]
      · by_cases hg : k = g <;> simp [dictSet, dictGet, hk, hg, ih, h]

theorem dictSet_ne_nil (p : Proto) (f : String) (v : Value) :
    dictSet p f v ≠ [] := by
  cases p with
  | nil => simp [dictSet]
  | cons kv rest =>
      obtain ⟨k, w⟩ := kv
      by_cases h : k = f <;> simp [dictSet, h]

theorem dictGet_dictPop_ne (p : Proto) (f g : String) (h : g ≠ f) :
    dictGet (dictPop p f) g = dictGet p g := by
  induction p with
  | nil => simp [dictPop]
  | cons kv rest ih =>
      obtain ⟨k, w⟩ := kv
      by_cases hk : k = f
      · subst hk
        simp [dictPop, dictGet, Ne.symm h]
      · by_cases hg : k = g <;> simp [dictPop, dictGet, hk, hg, ih, h]

theorem dictGet_eq_none_of_not_mem (p : Proto) (f : String)
    (h : f ∉ dictKeys p) : dictGet p f = none := by
  induction p with
  | nil => simp [dictGet]
  | cons kv rest ih =>
      obtain ⟨k, w⟩ := kv
      simp only [dictKeys, List.map_cons, List.mem_cons] at h
      push_neg at h
      simp [dictGet, Ne.symm h.1, ih (by simpa [dictKeys] using h.2)]

theorem dictGet_dictPop_self (p : Proto) (f : String) (hnd : dictNodup p) :
    dictGet (dictPop p f) f = none := by
  induction p with
  | nil => simp [dictPop, dictGet]
  | cons kv rest ih =>
      obtain ⟨k, w⟩ := kv
      simp only [dictNodup, dictKeys, List.map_cons, List.nodup_cons] at hnd
      by_cases hk : k = f
      · subst hk
        simp only [dictPop, if_pos rfl]
        exact dictGet_eq_none_of_not_mem rest k hnd.1
      · simpa [dictPop, dictGet, hk] using ih hnd.2

theorem mem_dictKeys_dictSet (p : Proto) (f g : String) (v : Value)
    (h : g ∈ dictKeys (dictSet p f v)) : g = f ∨ g ∈ dictKeys p := by
  induction p with
  | nil => simpa [dictSet, dictKeys] using h
  | cons kv rest ih =>
      obtain ⟨k, w⟩ := kv
      by_cases hk : k = f
      · subst hk
        rw [show dictSet ((k, w) :: rest) k v = (k, v) :: rest from by
          simp [dictSet]] at h
        simp only [dictKeys, List.map_cons, List.mem_cons] at h ⊢
        exact h.imp id Or.inr
      · simp only [dictSet, if_neg hk, dictKeys, List.map_cons,
          List.mem_cons] at h ⊢
        rcases h with h | h
        · exact Or.inr (Or.inl h)
        · rcases ih h with h | h
          · exact Or.inl h
          · exact Or.inr (Or.inr h)

theorem dictNodup_dictSet (p : Proto) (f : String) (v : Value)
    (hnd : dictNodup p) : dictNodup (dictSet p f v) := by
  induction p with
  | nil => simp [dictSet, dictNodup, dictKeys]
  | cons kv rest ih =>
      obtain ⟨k, w⟩ := kv
      simp only [dictNodup, dictKeys, List.map_cons, List.nodup_cons] at hnd
      by_cases hk : k = f
      · subst hk
        simpa [dictSet, dictNodup, dictKeys] using hnd
      · simp only [dictSet, if_neg hk, dictNodup, dictKeys, List.map_cons,
          List.nodup_cons]
        refine ⟨fun hmem => ?_, ih hnd.2⟩
        rcases mem_dictKeys_dictSet rest f k v hmem with h | h
        · exact hk h
        · exact hnd.1 h

theorem hasKey_dictSet_ne (p : Proto) (f g : String) (v : Value)
    (h : g ≠ f) : hasKey (dictSet p f v) g = hasKey p g := by
  unfold hasKey
  rw [dictGet_dictSet_ne p f g v h]

theorem hasKey_dictPop_ne (p : Proto) (f g : String) (h : g ≠ f) :
    hasKey (dictPop p f) g = hasKey p g := by
  unfold hasKey
  rw [dictGet_dictPop_ne p f g h]

theorem hasKey_dictPop_self (p : Proto) (f : String) (hnd : dictNodup p) :
    hasKey (dictPop p f) f = false := by
  unfold hasKey
  rw [dictGet_dictPop_self p f hnd]
  rfl

/-! ### `get_menu_prototype` lemmas -/

theorem get_menu_prototype_fst (st : MenuState) :
    (get_menu_prototype st).1 = st.olc_prototype.getD [] := by
  rcases st with ⟨op, onew⟩
  rcases op with _ | p
  · rfl
  · rcases p with _ | ⟨kv, rest⟩ <;> rfl

theorem get_menu_prototype_of_cons (st : MenuState) (p : Proto) (hp : p ≠ [])
    (h : st.olc_prototype = some p) : get_menu_prototype st = (p, st) := by
  rcases p with _ | ⟨kv, rest⟩
  · exact absurd rfl hp
  · unfold get_menu_prototype
    rw [h]

theorem get_menu_prototype_olc (st : MenuState) :
    (get_menu_prototype st).2.olc_prototype = some (get_menu_prototype st).1 := by
  rcases st with ⟨op, onew⟩
  rcases op with _ | p
  · rfl
  · rcases p with _ | ⟨kv, rest⟩ <;> rfl

/-! ### Central `_set_property` lemmas -/

theorem set_property_error (pf : Protfunc) (st : MenuState)
    (raw prop nn : String) (processor : Option Processor) (tp : Bool)
    (err : String) (h : procValue processor raw = .error err) :
    set_property pf st raw prop processor nn tp =
      { state := st,
        msgs := ["Could not set " ++ pyCapitalize (String.replace prop "_" "-")
                  ++ " to " ++ raw ++ " (" ++ err ++ ")"],
        ret := none } := by
  unfold set_property
  rw [h]

theorem set_property_falsy (pf : Protfunc) (st : MenuState)
    (raw prop nn : String) (processor : Option Processor) (tp : Bool)
    (v : Value) (h : procValue processor raw = .ok v)
    (hf : v.isFalsy = true) :
    set_property pf st raw prop processor nn tp =
      { state := st, msgs := [], ret := some nn } := by
  unfold set_property
  rw [h]
  simp [hf]

theorem set_property_store (pf : Protfunc) (st : MenuState)
    (raw prop nn : String) (processor : Option Processor) (tp : Bool)
    (v : Value) (h : procValue processor raw = .ok v)
    (hf : v.isFalsy = false) :
    (set_property pf st raw prop processor nn tp).ret = some nn ∧
    (set_property pf st raw prop processor nn tp).state.olc_prototype =
      some (storeResultProto st prop v) := by
  unfold set_property
  rw [h]
  simp [hf, set_prototype_value, storeResultProto]

theorem pySplitAux_ne_nil (sep : Char) (l : List Char) (acc : List Char) :
    pySplitAux sep l acc ≠ [] := by
  induction l generalizing acc with
  | nil => simp [pySplitAux]
  | cons c rest ih =>
      by_cases h : c = sep <;> simp [pySplitAux, h, ih]

theorem pySplit_ne_nil (s : String) (sep : Char) : pySplit s sep ≠ [] :=
  pySplitAux_ne_nil sep s.data []

theorem vlist_map_pySplit_not_falsy (f : String → String) (s : String) :
    (Value.vlist ((pySplit s ',').map f)).isFalsy = false := by
  rcases hd : pySplit s ',' with _ | ⟨a, rest⟩
  · exact absurd hd (pySplit_ne_nil s ',')
  · simp [Value.isFalsy]

theorem dictGet_storeResultProto_self (st : MenuState) (prop : String)
    (v : Value) : dictGet (storeResultProto st prop v) prop = some v := by
  unfold storeResultProto
  by_cases h1 : pyLower (pyStrip prop) = "typeclass"
  · have hp : prop ≠ "prototype_parent" := by
      intro he
      rw [he] at h1
      exact absurd h1 (by decide)
    have h2 : ¬pyLower (pyStrip prop) = "prototype_parent" := by
      rw [h1]; decide
    simp only [if_pos h1, if_neg h2]
    rw [dictGet_dictPop_ne _ _ _ hp, dictGet_dictSet_self]
  · by_cases h2 : pyLower (pyStrip prop) = "prototype_parent"
    · have hp : prop ≠ "typeclass" := by
        intro he
        rw [he] at h2
        exact absurd h2 (by decide)
      simp only [if_pos h2, if_neg h1]
      rw [dictGet_dictPop_ne _ _ _ hp, dictGet_dictSet_self]
    · simp only [if_neg h1, if_neg h2]
      rw [dictGet_dictSet_self]

theorem storeResultProto_other (st : MenuState) (prop : String) (v : Value)
    (h1 : pyLower (pyStrip prop) ≠ "typeclass")
    (h2 : pyLower (pyStrip prop) ≠ "prototype_parent") :
    storeResultProto st prop v = dictSet (get_menu_prototype st).1 prop v := by
  simp [storeResultProto, h1, h2]

/-- Unfolding of `node_prototype_save` when the accept-save shortcut
does not fire (first pass, or non-truthy kwargs). -/
theorem node_prototype_save_else (pts : Proto → String)
    (vs : Proto → Option (Bool × String)) (sf : String → Bool)
    (st : MenuState) (acc : Bool) (pArg : Option Proto)
    (hacc : (acc && protoTruthy pArg) = false) :
    node_prototype_save pts vs sf st acc pArg =
      (if (validate_prototype pts vs (get_menu_prototype st).1).1 then
        { state := (get_menu_prototype st).2, saveCalls := [], msgs := [],
          ret := none,
          text := some ((validate_prototype pts vs
              (get_menu_prototype st).1).2 ++ "\n"
            ++ "Validation errors were found. "
            ++ "They need to be corrected before this prototype "
            ++ "can be saved (or used to spawn)."),
          offersAccept := false, acceptPrototype := none, crashed := false }
      else
        match dictGet (get_menu_prototype st).1 "prototype_key" with
        | none =>
            { state := (get_menu_prototype st).2, saveCalls := [],
              msgs := [], ret := none, text := none, offersAccept := false,
              acceptPrototype := none, crashed := true }
        | some pk =>
            if sf pk.pyStr then
              { state := (get_menu_prototype st).2, saveCalls := [],
                msgs := [], ret := none,
                text := some ((validate_prototype pts vs
                    (get_menu_prototype st).1).2 ++ "\n"
                  ++ "Do you want to save/overwrite the existing prototype \x27"
                  ++ pk.pyStr ++ "\x27?"),
                offersAccept := true,
                acceptPrototype := some (get_menu_prototype st).1,
                crashed := false }
            else
              { state := (get_menu_prototype st).2, saveCalls := [],
                msgs := [], ret := none, text := none, offersAccept := false,
                acceptPrototype := none, crashed := true }) := by
  unfold node_prototype_save
  rw [if_neg (by simp [hacc])]

/-! ### Claims -/

/-- Claim C2: for every free-text editing action that successfully
stores a value through `_set_property` (the processor succeeds and the
value is truthy), the returned node id is the statically configured
`next_node` kwarg of that screen, independent of the input text and of
the prototype's current contents; likewise the `_check_prototype_key`
handler returns its statically wired `node_prototype_parent` on its
store path. -/
theorem claim_C2_static_next_node (pf : Protfunc) (st : MenuState)
    (raw prop nn : String) (processor : Option Processor) (tp : Bool)
    (v : Value) (h : procValue processor raw = .ok v)
    (hf : v.isFalsy = false) :
    (set_property pf st raw prop processor nn tp).ret = some nn ∧
    (∀ (search : String → List Proto) (lockCheck : Proto → Bool)
      (key : String), search key = [] → pyLower (pyStrip key) ≠ "" →
      (check_prototype_key search lockCheck pf st key).ret =
        some "node_prototype_parent") := by
  refine ⟨(set_property_store pf st raw prop nn processor tp v h hf).1, ?_⟩
  intro search lockCheck key hs hk
  unfold check_prototype_key
  rw [hs]
  exact (set_property_store pf st (pyLower (pyStrip key)) "prototype_key"
    "node_prototype_parent" none true (.str (pyLower (pyStrip key))) rfl
    (by simp [Value.isFalsy, hk])).1

theorem claim_C2_witness :
    (set_property idProtfunc emptyState "some input" "key" none
      "node_aliases" true).ret = some "node_aliases" :=
  (claim_C2_static_next_node idProtfunc emptyState "some input" "key"
    "node_aliases" none true (Value.str "some input") rfl (by decide)).1

/-- Claim C5: when the configured processor raises on the input,
`_set_property` messages the library error to the user, leaves the
session state (and hence the prototype mapping) completely unchanged,
and returns `None` so the current node re-runs. -/
theorem claim_C5_processor_error_atomic (pf : Protfunc) (st : MenuState)
    (raw prop nn : String) (processor : Option Processor) (tp : Bool)
    (err : String) (h : procValue processor raw = .error err) :
    (set_property pf st raw prop processor nn tp).state = st ∧
    (set_property pf st raw prop processor nn tp).ret = none ∧
    (set_property pf st raw prop processor nn tp).msgs =
      ["Could not set " ++ pyCapitalize (String.replace prop "_" "-")
        ++ " to " ++ raw ++ " (" ++ err ++ ")"] := by
  rw [set_property_error pf st raw prop nn processor tp err h]
  exact ⟨rfl, rfl, rfl⟩

theorem claim_C5_witness :
    (set_property idProtfunc emptyState "xyz" "prototype_key"
      (some failProcessor) "node_index" true).state = emptyState ∧
    (set_property idProtfunc emptyState "xyz" "prototype_key"
      (some failProcessor) "node_index" true).ret = none ∧
    (set_property idProtfunc emptyState "xyz" "prototype_key"
      (some failProcessor) "node_index" true).msgs =
      ["Could not set " ++ pyCapitalize (String.replace "prototype_key" "_" "-")
        ++ " to " ++ "xyz" ++ " (" ++ "boom" ++ ")"] :=
  claim_C5_processor_error_atomic idProtfunc emptyState "xyz"
    "prototype_key" "node_index" (some failProcessor) true "boom" rfl

/-- Claim C10: when the (possibly processor-transformed) value is
falsy, `_set_property` returns the configured next node with no
message and no change at all to the session state: empty input
advances the wizard and leaves every prototype field unchanged. -/
theorem claim_C10_empty_input_skip (pf : Protfunc) (st : MenuState)
    (raw prop nn : String) (processor : Option Processor) (tp : Bool)
    (v : Value) (h : procValue processor raw = .ok v)
    (hf : v.isFalsy = true) :
    set_property pf st raw prop processor nn tp =
      { state := st, msgs := [], ret := some nn } :=
  set_property_falsy pf st raw prop nn processor tp v h hf

theorem claim_C10_witness :
    set_property idProtfunc emptyState "" "key" none "node_aliases" true =
      { state := emptyState, msgs := [], ret := some "node_aliases" } :=
  claim_C10_empty_input_skip idProtfunc emptyState "" "key" "node_aliases"
    none true (Value.str "") rfl (by decide)

/-- Claim C6: `_set_prototype_value` stores the value under the given
field in the session prototype (written back to
`caller.ndb._menutree.olc_prototype`), leaves every other field
unchanged, and a subsequent `_get_menu_prototype` on the same state
returns exactly the updated mapping. -/
theorem claim_C6_set_prototype_value (st : MenuState) (field g : String)
    (value : Value) (hg : g ≠ field) :
    dictGet (set_prototype_value st field value).2 field = some value ∧
    dictGet (set_prototype_value st field value).2 g =
      dictGet (get_menu_prototype st).1 g ∧
    (set_prototype_value st field value).1.olc_prototype =
      some (set_prototype_value st field value).2 ∧
    get_menu_prototype (set_prototype_value st field value).1 =
      ((set_prototype_value st field value).2,
        (set_prototype_value st field value).1) := by
  refine ⟨?_, ?_, rfl, ?_⟩
  · simp [set_prototype_value, dictGet_dictSet_self]
  · simp [set_prototype_value, dictGet_dictSet_ne _ _ _ _ hg]
  · have h1 : (set_prototype_value st field value).1.olc_prototype =
        some (set_prototype_value st field value).2 := rfl
    have h2 : (set_prototype_value st field value).2 ≠ [] :=
      dictSet_ne_nil (get_menu_prototype st).1 field value
    exact get_menu_prototype_of_cons _ _ h2 h1

theorem claim_C6_witness :
    ("typeclass" : String) ≠ "key" ∧
    dictGet (set_prototype_value emptyState "key" (Value.str "orc")).2 "key" =
      some (Value.str "orc") :=
  ⟨by decide,
    (claim_C6_set_prototype_value emptyState "key" "typeclass"
      (Value.str "orc") (by decide)).1⟩

/-- Claim C8: on the comma-separated-list screens, the value stored in
the prototype for a non-empty input is exactly the input split on `,`
with each part stripped of surrounding whitespace (`node_aliases`,
`node_permissions`), each part additionally lowercased on
`node_prototype_tags`; each call uses that screen's processor and
statically wired next node from the source. -/
theorem claim_C8_comma_list_processors (pf : Protfunc) (st : MenuState)
    (s : String) (hs : s ≠ "") :
    dictGet ((set_property pf st s "aliases" (some aliases_processor)
      "node_attrs" true).state.olc_prototype.getD []) "aliases" =
      some (Value.vlist ((pySplit s ',').map pyStrip)) ∧
    dictGet ((set_property pf st s "permissions" (some permissions_processor)
      "node_location" true).state.olc_prototype.getD []) "permissions" =
      some (Value.vlist ((pySplit s ',').map pyStrip)) ∧
    dictGet ((set_property pf st s "prototype_tags"
      (some prototype_tags_processor)
      "node_prototype_locks" true).state.olc_prototype.getD [])
      "prototype_tags" =
      some (Value.vlist ((pySplit s ',').map
        (fun part => pyLower (pyStrip part)))) := by
  refine ⟨?_, ?_, ?_⟩
  · have h := (set_property_store pf st s "aliases" "node_attrs"
      (some aliases_processor) true
      (Value.vlist ((pySplit s ',').map pyStrip)) rfl
      (vlist_map_pySplit_not_falsy _ _)).2
    rw [h]
    simpa using dictGet_storeResultProto_self st "aliases" _
  · have h := (set_property_store pf st s "permissions" "node_location"
      (some permissions_processor) true
      (Value.vlist ((pySplit s ',').map pyStrip)) rfl
      (vlist_map_pySplit_not_falsy _ _)).2
    rw [h]
    simpa using dictGet_storeResultProto_self st "permissions" _
  · have h := (set_property_store pf st s "prototype_tags"
      "node_prototype_locks" (some prototype_tags_processor) true
      (Value.vlist ((pySplit s ',').map (fun part => pyLower (pyStrip part))))
      rfl (vlist_map_pySplit_not_falsy _ _)).2
    rw [h]
    simpa using dictGet_storeResultProto_self st "prototype_tags" _

theorem claim_C8_witness :
    dictGet ((set_property idProtfunc emptyState " a, B ,c" "aliases"
      (some aliases_processor) "node_attrs" true).state.olc_prototype.getD [])
      "aliases" =
      some (Value.vlist ((pySplit " a, B ,c" ',').map pyStrip)) :=
  (claim_C8_comma_list_processors idProtfunc emptyState " a, B ,c"
    (by decide)).1

/-- Claim C9: mutual-exclusion invariant.  If the edited prototype
does not contain both `typeclass` and `prototype_parent` (and, as for
every Python dict, its keys are unique), then after any call to
`_set_property` — with any prop, processor and input, hence also via
the `_typeclass_select` and `_prototype_parent_select` handlers, which
delegate to it — it still does not contain both: setting one of the
two keys removes the other. -/
theorem claim_C9_typeclass_parent_exclusion (pf : Protfunc) (st : MenuState)
    (raw prop nn : String) (processor : Option Processor) (tp : Bool)
    (hnd : dictNodup (protoOf st))
    (hinv : ¬(hasKey (protoOf st) "typeclass" = true ∧
              hasKey (protoOf st) "prototype_parent" = true)) :
    ¬(hasKey (protoOf (set_property pf st raw prop processor nn tp).state)
        "typeclass" = true ∧
      hasKey (protoOf (set_property pf st raw prop processor nn tp).state)
        "prototype_parent" = true) := by
  rcases hp : procValue processor raw with err | v
  · rw [set_property_error pf st raw prop nn processor tp err hp]
    exact hinv
  · cases hf : v.isFalsy with
    | true =>
        rw [set_property_falsy pf st raw prop nn processor tp v hp hf]
        exact hinv
    | false =>
        have hs := (set_property_store pf st raw prop nn processor tp v hp hf).2
        have hstate :
            protoOf (set_property pf st raw prop processor nn tp).state =
              storeResultProto st prop v := by
          unfold protoOf
          rw [hs]
          rfl
        rw [hstate]
        have hbase : (get_menu_prototype st).1 = protoOf st := by
          rw [get_menu_prototype_fst]
          rfl
        have hnd1 : dictNodup (dictSet (get_menu_prototype st).1 prop v) := by
          rw [hbase]
          exact dictNodup_dictSet _ _ _ hnd
        by_cases h1 : pyLower (pyStrip prop) = "typeclass"
        · have h2 : ¬pyLower (pyStrip prop) = "prototype_parent" := by
            rw [h1]; decide
          have heq : storeResultProto st prop v =
              dictPop (dictSet (get_menu_prototype st).1 prop v)
                "prototype_parent" := by
            simp [storeResultProto, h1, h2]
          rw [heq]
          rintro ⟨htc, hpp⟩
          rw [hasKey_dictPop_self _ _ hnd1] at hpp
          exact Bool.false_ne_true hpp
        · by_cases h2 : pyLower (pyStrip prop) = "prototype_parent"
          · have heq : storeResultProto st prop v =
                dictPop (dictSet (get_menu_prototype st).1 prop v)
                  "typeclass" := by
              simp [storeResultProto, h1, h2]
            rw [heq]
            rintro ⟨htc, hpp⟩
            rw [hasKey_dictPop_self _ _ hnd1] at htc
            exact Bool.false_ne_true htc
          · have heq := storeResultProto_other st prop v h1 h2
            rw [heq, hbase]
            have hptc : prop ≠ "typeclass" := by
              intro he
              rw [he] at h1
              exact h1 (by decide)
            have hppp : prop ≠ "prototype_parent" := by
              intro he
              rw [he] at h2
              exact h2 (by decide)
            rw [hasKey_dictSet_ne _ _ _ _ (Ne.symm hptc),
              hasKey_dictSet_ne _ _ _ _ (Ne.symm hppp)]
            exact hinv

theorem claim_C9_witness :
    ¬(hasKey (protoOf (set_property idProtfunc
        { olc_prototype := some [("prototype_parent", Value.str "goblin")],
          olc_new := none } "some.path" "typeclass"
        (some strProcessor) "node_key" true).state) "typeclass" = true ∧
      hasKey (protoOf (set_property idProtfunc
        { olc_prototype := some [("prototype_parent", Value.str "goblin")],
          olc_new := none } "some.path" "typeclass"
        (some strProcessor) "node_key" true).state) "prototype_parent" = true) :=
  claim_C9_typeclass_parent_exclusion idProtfunc
    { olc_prototype := some [("prototype_parent", Value.str "goblin")],
      olc_new := none } "some.path" "typeclass" "node_key"
    (some strProcessor) true (by decide) (by decide)

/-- Claim C1 counterexample: with test-parsing enabled and a protfunc
oracle whose parse result (`"PARSED"`) differs from the input, the
value `_set_property` writes into the prototype under the given
property name is the original (processor) value `"hello"`, not the
parser's result: the parsing step's result is never written back. -/
theorem claim_C1_counterexample :
    dictGet (protoOf (set_property constProtfunc emptyState "hello" "key"
      none "node_aliases" true).state) "key" = some (Value.str "hello") ∧
    (constProtfunc (Value.str "hello")).2 = Value.str "PARSED" ∧
    Value.str "hello" ≠ Value.str "PARSED" := by
  refine ⟨by decide, rfl, by decide⟩

/-- Claim C1 (amended): with test-parsing enabled, `_set_property`
runs the stored value through the external protfunc parser for display
only: the value written back under the given property name is the
processor result itself, and neither the resulting session state nor
the returned next node depends on the parser at all. -/
theorem claim_C1_parse_is_display_only (pf1 pf2 : Protfunc)
    (st : MenuState) (raw prop nn : String) (processor : Option Processor)
    (v : Value) (h : procValue processor raw = .ok v)
    (hf : v.isFalsy = false) :
    dictGet (protoOf (set_property pf1 st raw prop processor nn true).state)
        prop = some v ∧
    (set_property pf1 st raw prop processor nn true).state =
      (set_property pf2 st raw prop processor nn true).state ∧
    (set_property pf1 st raw prop processor nn true).ret =
      (set_property pf2 st raw prop processor nn true).ret := by
  refine ⟨?_, ?_, ?_⟩
  · have hs := (set_property_store pf1 st raw prop nn processor true v h hf).2
    unfold protoOf
    rw [hs]
    simpa using dictGet_storeResultProto_self st prop v
  · unfold set_property
    rw [h]
    simp [hf]
  · unfold set_property
    rw [h]
    simp [hf]

theorem claim_C1_amended_witness :
    dictGet (protoOf (set_property constProtfunc emptyState "goblin" "key"
        none "node_aliases" true).state) "key" = some (Value.str "goblin") ∧
    (set_property constProtfunc emptyState "goblin" "key" none
        "node_aliases" true).state =
      (set_property idProtfunc emptyState "goblin" "key" none
        "node_aliases" true).state ∧
    (set_property constProtfunc emptyState "goblin" "key" none
        "node_aliases" true).ret =
      (set_property idProtfunc emptyState "goblin" "key" none
        "node_aliases" true).ret :=
  claim_C1_parse_is_display_only constProtfunc idProtfunc emptyState
    "goblin" "key" "node_aliases" none (Value.str "goblin") rfl (by decide)

/-- Claim C7: when `_prototype_load_select` is given a key and the
external retrieve-by-key function returns at least one match, the
first match becomes the edited prototype, the new-prototype flag is
cleared (set to `False`), and the wizard goes to `node_index`; when
there is no match, a failure message is shown, `None` is returned, and
the edited prototype is unchanged. -/
theorem claim_C7_load_select (search : String → List Proto) (st : MenuState)
    (key : String) :
    (∀ p rest, search key = p :: rest →
      (prototype_load_select search st key).state.olc_prototype = some p ∧
      (prototype_load_select search st key).state.olc_new = some false ∧
      (prototype_load_select search st key).ret = some "node_index") ∧
    (search key = [] →
      (prototype_load_select search st key).state = st ∧
      (prototype_load_select search st key).ret = none ∧
      (prototype_load_select search st key).msgs =
        ["|rFailed to load prototype \x27" ++ key ++ "\x27."]) := by
  constructor
  · intro p rest hs
    unfold prototype_load_select
    rw [hs]
    exact ⟨rfl, rfl, rfl⟩
  · intro hs
    unfold prototype_load_select
    rw [hs]
    exact ⟨rfl, rfl, rfl⟩

theorem claim_C7_witness :
    (prototype_load_select goblinSearch emptyState
      "goblin").state.olc_prototype = some goblinProto ∧
    (prototype_load_select goblinSearch emptyState
      "goblin").state.olc_new = some false ∧
    (prototype_load_select goblinSearch emptyState "goblin").ret =
      some "node_index" :=
  (claim_C7_load_select goblinSearch emptyState "goblin").1 goblinProto []
    (by decide)

/-- Claim C3: `node_prototype_save` aborts with an explanatory message
and makes no persist call when validation of the current prototype
reports an error, and in that case the accept-save options are not
offered; the persist function is called only on a pass with
`accept=True` and a truthy prototype kwarg, and the accept options
(which are the only source of such a pass) are offered only when
validation reported no error, carrying exactly the validated
prototype. -/
theorem claim_C3_save_guard (pts : Proto → String)
    (vs : Proto → Option (Bool × String)) (sf : String → Bool)
    (st : MenuState) :
    ((validate_prototype pts vs (get_menu_prototype st).1).1 = true →
      (node_prototype_save pts vs sf st false none).saveCalls = [] ∧
      (node_prototype_save pts vs sf st false none).offersAccept = false ∧
      (node_prototype_save pts vs sf st false none).text =
        some ((validate_prototype pts vs (get_menu_prototype st).1).2 ++ "\n"
          ++ "Validation errors were found. "
          ++ "They need to be corrected before this prototype "
          ++ "can be saved (or used to spawn).")) ∧
    (∀ (acc : Bool) (pArg : Option Proto),
      (node_prototype_save pts vs sf st acc pArg).saveCalls ≠ [] →
      acc = true ∧ protoTruthy pArg = true ∧
      (node_prototype_save pts vs sf st acc pArg).saveCalls =
        [pArg.getD []] ∧
      (node_prototype_save pts vs sf st acc pArg).ret = some "node_spawn") ∧
    (∀ (acc : Bool) (pArg : Option Proto),
      (node_prototype_save pts vs sf st acc pArg).offersAccept = true →
      (validate_prototype pts vs (get_menu_prototype st).1).1 = false ∧
      (node_prototype_save pts vs sf st acc pArg).acceptPrototype =
        some (get_menu_prototype st).1) := by
  refine ⟨?_, ?_, ?_⟩
  · intro h
    simp [node_prototype_save, protoTruthy, h]
  · intro acc pArg hne
    cases hacc : acc && protoTruthy pArg with
    | true =>
        rcases Bool.and_eq_true _ _ |>.mp hacc with ⟨ha, hp⟩
        refine ⟨ha, hp, ?_, ?_⟩ <;>
          simp [node_prototype_save, hacc]
    | false =>
        exfalso
        apply hne
        rw [node_prototype_save_else pts vs sf st acc pArg hacc]
        split
        · rfl
        · split
          · rfl
          · split <;> rfl
  · intro acc pArg hoff
    cases hacc : acc && protoTruthy pArg with
    | true =>
        rw [show (node_prototype_save pts vs sf st acc pArg).offersAccept =
          false by unfold node_prototype_save; rw [if_pos hacc]] at hoff
        exact absurd hoff (by simp)
    | false =>
        rw [node_prototype_save_else pts vs sf st acc pArg hacc] at hoff ⊢
        cases hv : (validate_prototype pts vs (get_menu_prototype st).1).1 with
        | true => simp [hv] at hoff
        | false =>
            simp only [hv, Bool.false_eq_true, if_false] at hoff ⊢
            rcases hk : dictGet (get_menu_prototype st).1 "prototype_key" with
              _ | pk
            · simp [hk] at hoff
            · rcases hsf : sf pk.pyStr with _ | _
              · simp [hk, hsf] at hoff
              · simp [hk, hsf]

theorem claim_C3_witness :
    (true = true) ∧ protoTruthy (some goblinProto) = true ∧
    (node_prototype_save (fun _ => "") (fun _ => none) (fun _ => true)
      emptyState true (some goblinProto)).saveCalls =
      [(some goblinProto).getD []] ∧
    (node_prototype_save (fun _ => "") (fun _ => none) (fun _ => true)
      emptyState true (some goblinProto)).ret = some "node_spawn" :=
  (claim_C3_save_guard (fun _ => "") (fun _ => none) (fun _ => true)
    emptyState).2.1 true (some goblinProto) (by decide)

/-- Claim C4: if validation of the current prototype fails,
`node_prototype_spawn` shows the validation error and offers no spawn
option (so the external instantiate function cannot be called); when
validation passes, every offered spawn option carries the current
prototype, and choosing one runs `_spawn`, which calls `spawner.spawn`
exactly once on a copy of that prototype with the selected location
applied, then formats the new instance's key and dbref (or an error
message when no object came back). -/
theorem claim_C4_spawn_guard (pts : Proto → String)
    (vs : Proto → Option (Bool × String)) (sc : String → Nat)
    (callerLoc : Option Value) (callerObj : Value) (st : MenuState) :
    ((validate_prototype pts vs (get_menu_prototype st).1).1 = true →
      (node_prototype_spawn pts vs sc callerLoc callerObj st).spawnOptions
        = [] ∧
      (node_prototype_spawn pts vs sc callerLoc callerObj st).text =
        [(validate_prototype pts vs (get_menu_prototype st).1).2,
         "|rPrototype validation failed. Correct the errors before spawning.|n"]) ∧
    (∀ popt ∈ (node_prototype_spawn pts vs sc callerLoc callerObj
      st).spawnOptions, popt.1 = (get_menu_prototype st).1) ∧
    (∀ (spawnFn : Proto → Option ObjRef) (p : Proto) (loc : Option Value),
      (run_spawn spawnFn p loc).1 = [spawnTarget p loc] ∧
      (∀ obj, spawnFn (spawnTarget p loc) = some obj →
        (run_spawn spawnFn p loc).2 =
          ["|gNew instance|n " ++ obj.key ++ " (" ++ obj.dbref
            ++ ") |gspawned.|n"]) ∧
      (spawnFn (spawnTarget p loc) = none →
        (run_spawn spawnFn p loc).2 =
          ["|rError: Spawner did not return a new instance.|n"])) := by
  refine ⟨?_, ?_, ?_⟩
  · intro h
    simp [node_prototype_spawn, h]
  · intro popt hmem
    unfold node_prototype_spawn at hmem
    cases hv : (validate_prototype pts vs (get_menu_prototype st).1).1 with
    | true => simp [hv] at hmem
    | false =>
        simp only [hv] at hmem
        rcases hk : dictGet (get_menu_prototype st).1 "prototype_key" with
          _ | pk
        · simp [hk] at hmem
        · simp only [hk, Bool.false_eq_true, if_false, List.mem_append] at hmem
          rcases hmem with (hmem | hmem) | hmem <;>
            rcases Classical.em (locTruthy
              (dictGet (get_menu_prototype st).1 "location")) with hc | hc <;>
            simp [hc] at hmem <;> simp [hmem]
  · intro spawnFn p loc
    refine ⟨?_, ?_, ?_⟩
    · unfold run_spawn spawnTarget
      rcases loc with _ | l
      · cases hobj : spawnFn p <;> simp [hobj]
      · cases hl : l.isFalsy <;>
          [cases hobj : spawnFn (dictSet p "location" l) <;>
            simp [hl, hobj];
          cases hobj : spawnFn p <;> simp [hl, hobj]]
    · intro obj hobj
      unfold run_spawn
      unfold spawnTarget at hobj
      rcases loc with _ | l
      · simp [hobj]
      · cases hl : l.isFalsy <;> simp [hl] at hobj <;> simp [hl, hobj]
    · intro hobj
      unfold run_spawn
      unfold spawnTarget at hobj
      rcases loc with _ | l
      · simp [hobj]
      · cases hl : l.isFalsy <;> simp [hl] at hobj <;> simp [hl, hobj]

theorem claim_C4_witness :
    (run_spawn okSpawner goblinProto none).1 =
      [spawnTarget goblinProto none] ∧
    (run_spawn okSpawner goblinProto none).2 =
      ["|gNew instance|n " ++ "a goblin" ++ " (" ++ "#5"
        ++ ") |gspawned.|n"] :=
  ⟨((claim_C4_spawn_guard (fun _ => "") (fun _ => none) (fun _ => 0)
      none (Value.str "me") emptyState).2.2 okSpawner goblinProto none).1,
    ((claim_C4_spawn_guard (fun _ => "") (fun _ => none) (fun _ => 0)
      none (Value.str "me") emptyState).2.2 okSpawner goblinProto none).2.1
      { key := "a goblin", dbref := "#5" } rfl⟩

end OLC
